import Mathlib

/-!
Verification of the FixIt AI request-orchestration core against its design
document.  The file shallowly embeds, from the repository source:

* the inference gateway `GeminiClient.generate_response` together with its
  module-level state (circuit flag, rate window, quota counters, prompt
  cache) from `backend/utils/gemini_client.py`;
* the JSON-recovery cascade of that gateway, over an executable model of
  Python `json.loads` / `JSONDecoder.raw_decode`;
* the gate-pipeline fragments of `backend/main.py` (confidence bucketing,
  the Gate-4 localization decision, the Gate-5 skip test);
* `SpatialMapper.should_attempt_localization` from
  `backend/agents/spatial_mapper.py`;
* `build_troubleshoot_response` / `_determine_status` /
  `_add_scenario_fields` / `format_response_for_display` from
  `backend/utils/response_builder.py`.

Machine floats of the source are modelled by rationals, timestamps by
natural-number seconds, and the SHA-256 request digest by its preimage key
string (the digest is a deterministic function of that key, so equality of
keys decides equality of digests; no claim relies on collisions).
-/

namespace FixIt

/-! ## Python string primitives used by the gateway -/

/-- ASCII lower-casing of one character, as Python `str.lower` acts on the
ASCII error strings classified by the gateway. -/
def lowerChar (c : Char) : Char :=
  if 'A' ≤ c ∧ c ≤ 'Z' then Char.ofNat (c.toNat + 32) else c

/-- Python `str.lower` on ASCII text. -/
def lowerStr (s : String) : String :=
  String.mk (s.data.map lowerChar)

/-- Contiguous-sublist test over characters. -/
def listInfix (needle : List Char) : List Char → Bool
  | [] => needle.isEmpty
  | c :: cs => if needle.isPrefixOf (c :: cs) then true else listInfix needle cs

/-- Python `needle in hay` substring test. -/
def strContains (hay needle : String) : Bool :=
  listInfix needle.data hay.data

/-- The whitespace stripped by Python `str.strip()`. -/
def pyIsSpace (c : Char) : Bool :=
  c = ' ' || c = '\t' || c = '\n' || c = '\r' || c = '\x0b' || c = '\x0c'

/-- Python `str.strip()`. -/
def pyStrip (s : String) : String :=
  String.mk (((s.data.dropWhile pyIsSpace).reverse.dropWhile pyIsSpace).reverse)

/-- One pass of Python `str.replace`, replacing non-overlapping occurrences
left to right; the fuel is the length of the subject, enough because every
step consumes at least one character (needles used are non-empty). -/
def replaceAux (needle repl : List Char) : Nat → List Char → List Char
  | 0, s => s
  | fuel + 1, s =>
    if needle ≠ [] ∧ needle.isPrefixOf s then
      repl ++ replaceAux needle repl fuel (s.drop needle.length)
    else
      match s with
      | [] => []
      | c :: cs => c :: replaceAux needle repl fuel cs

/-- Python `s.replace(needle, repl)`. -/
def pyReplace (s needle repl : String) : String :=
  String.mk (replaceAux needle.data repl.data s.data.length s.data)

/-! ## Parsed JSON values and an executable model of `json.loads` -/

/-- Parsed JSON values, as produced by Python `json.loads`; numeric literals
keep their lexeme, which is all the gateway ever forwards. -/
inductive Json where
  | null
  | bool (b : Bool)
  | num (lexeme : String)
  | str (s : String)
  | arr (elems : List Json)
  | obj (members : List (String × Json))

/-- JSON insignificant whitespace. -/
def jsonWs (c : Char) : Bool :=
  c = ' ' || c = '\t' || c = '\n' || c = '\r'

/-- Skip insignificant whitespace. -/
def skipWs : List Char → List Char
  | [] => []
  | c :: cs => if jsonWs c then skipWs cs else c :: cs

/-- Hex-digit test for `\u` escapes. -/
def isHexDigitChar (c : Char) : Bool :=
  c.isDigit || (decide ('a' ≤ c) && decide (c ≤ 'f')) || (decide ('A' ≤ c) && decide (c ≤ 'F'))

/-- Value of a hex digit. -/
def hexDigitVal (c : Char) : Nat :=
  if c.isDigit then c.toNat - 48
  else if 'a' ≤ c ∧ c ≤ 'f' then c.toNat - 87
  else if 'A' ≤ c ∧ c ≤ 'F' then c.toNat - 55
  else 0

/-- Body of a JSON string after the opening quote, with the RFC 8259 escape
forms; each step consumes at least one character, so fuel equal to the input
length suffices. -/
def parseStringBody : Nat → List Char → Option (String × List Char)
  | 0, _ => none
  | fuel + 1, cs =>
    match cs with
    | [] => none
    | c :: rest =>
      if c = '"' then some ("", rest)
      else if c = '\\' then
        match rest with
        | [] => none
        | e :: rest2 =>
          let esc : Option (Char × List Char) :=
            if e = '"' ∨ e = '\\' ∨ e = '/' then some (e, rest2)
            else if e = 'b' then some ('\x08', rest2)
            else if e = 'f' then some ('\x0c', rest2)
            else if e = 'n' then some ('\n', rest2)
            else if e = 'r' then some ('\r', rest2)
            else if e = 't' then some ('\t', rest2)
            else if e = 'u' then
              match rest2 with
              | h1 :: h2 :: h3 :: h4 :: rest3 =>
                if isHexDigitChar h1 && isHexDigitChar h2 && isHexDigitChar h3 && isHexDigitChar h4 then
                  some (Char.ofNat (((hexDigitVal h1 * 16 + hexDigitVal h2) * 16 + hexDigitVal h3) * 16 + hexDigitVal h4), rest3)
                else none
              | _ => none
            else none
          match esc with
          | none => none
          | some (ch, r2) =>
            match parseStringBody fuel r2 with
            | some (s, r3) => some (String.mk (ch :: s.data), r3)
            | none => none
      else
        match parseStringBody fuel rest with
        | some (s, r3) => some (String.mk (c :: s.data), r3)
        | none => none

/-- Longest digit prefix and the remainder. -/
def spanDigits (cs : List Char) : List Char × List Char :=
  (cs.takeWhile Char.isDigit, cs.dropWhile Char.isDigit)

/-- A JSON numeric literal (sign, integer part, optional fraction and
exponent); the lexeme is kept verbatim. -/
def parseNumber (cs : List Char) : Option (Json × List Char) :=
  let signed := match cs with
    | '-' :: rest => (['-'], rest)
    | _ => (([] : List Char), cs)
  let intSpan := spanDigits signed.2
  if intSpan.1 = [] then none
  else
    let fracSpan : List Char × List Char :=
      match intSpan.2 with
      | '.' :: rest =>
          let ds := spanDigits rest
          if ds.1 = [] then ([], intSpan.2) else ('.' :: ds.1, ds.2)
      | _ => ([], intSpan.2)
    let expSpan : List Char × List Char :=
      match fracSpan.2 with
      | e :: rest =>
        if e = 'e' ∨ e = 'E' then
          match rest with
          | sgn :: rest2 =>
            if sgn = '+' ∨ sgn = '-' then
              let ds := spanDigits rest2
              if ds.1 = [] then ([], fracSpan.2) else (e :: sgn :: ds.1, ds.2)
            else
              let ds := spanDigits rest
              if ds.1 = [] then ([], fracSpan.2) else (e :: ds.1, ds.2)
          | [] => ([], fracSpan.2)
        else ([], fracSpan.2)
      | [] => ([], fracSpan.2)
    some (.num (String.mk (signed.1 ++ intSpan.1 ++ fracSpan.1 ++ expSpan.1)), expSpan.2)

mutual

/-- One JSON document starting at the given characters, mirroring
`json.JSONDecoder.raw_decode`: the parsed value and the unconsumed suffix.
Fuel decreases at each nested value; every recursive call follows the
consumption of at least one character, so fuel equal to the input length
suffices. -/
def parseValue : Nat → List Char → Option (Json × List Char)
  | 0, _ => none
  | fuel + 1, cs =>
    match skipWs cs with
    | 'n' :: 'u' :: 'l' :: 'l' :: rest => some (.null, rest)
    | 't' :: 'r' :: 'u' :: 'e' :: rest => some (.bool true, rest)
    | 'f' :: 'a' :: 'l' :: 's' :: 'e' :: rest => some (.bool false, rest)
    | '"' :: rest =>
        match parseStringBody (rest.length + 1) rest with
        | some (s, rest2) => some (.str s, rest2)
        | none => none
    | '[' :: rest =>
        match skipWs rest with
        | ']' :: rest2 => some (.arr [], rest2)
        | cs2 =>
            match parseItems fuel cs2 with
            | some (xs, rest2) => some (.arr xs, rest2)
            | none => none
    | '\x7b' :: rest =>
        match skipWs rest with
        | '\x7d' :: rest2 => some (.obj [], rest2)
        | cs2 =>
            match parseMembers fuel cs2 with
            | some (kvs, rest2) => some (.obj kvs, rest2)
            | none => none
    | c :: rest =>
        if c = '-' ∨ c.isDigit then parseNumber (c :: rest) else none
    | [] => none

/-- Comma-separated array elements up to the closing bracket. -/
def parseItems : Nat → List Char → Option (List Json × List Char)
  | 0, _ => none
  | fuel + 1, cs =>
    match parseValue fuel cs with
    | none => none
    | some (v, rest) =>
      match skipWs rest with
      | ',' :: rest2 =>
          match parseItems fuel rest2 with
          | some (xs, rest3) => some (v :: xs, rest3)
          | none => none
      | ']' :: rest2 => some ([v], rest2)
      | _ => none

/-- Comma-separated object members up to the closing brace. -/
def parseMembers : Nat → List Char → Option (List (String × Json) × List Char)
  | 0, _ => none
  | fuel + 1, cs =>
    match skipWs cs with
    | '"' :: rest =>
      match parseStringBody (rest.length + 1) rest with
      | none => none
      | some (k, rest2) =>
        match skipWs rest2 with
        | ':' :: rest3 =>
          match parseValue fuel rest3 with
          | none => none
          | some (v, rest4) =>
            match skipWs rest4 with
            | ',' :: rest5 =>
                match parseMembers fuel rest5 with
                | some (kvs, rest6) => some ((k, v) :: kvs, rest6)
                | none => none
            | '\x7d' :: rest5 => some ([(k, v)], rest5)
            | _ => none
        | _ => none
    | _ => none

end

/-- Python `json.loads`: exactly one JSON document, with surrounding
whitespace permitted and nothing else. -/
def loads (s : String) : Option Json :=
  match parseValue (s.length + 1) s.data with
  | some (v, rest) => if skipWs rest = [] then some v else none
  | none => none

/-- Characters from the first opening brace onward, `text.find('{')`. -/
def dropUntilBrace : List Char → Option (List Char)
  | [] => none
  | c :: cs => if c = '\x7b' then some (c :: cs) else dropUntilBrace cs

/-- `text.find('{')` followed by `json.JSONDecoder().raw_decode(text[idx:])`:
the first complete JSON document starting at the first opening brace, with
any trailing text ignored. -/
def firstBraceDecode (s : String) : Option Json :=
  match dropUntilBrace s.data with
  | none => none
  | some tailCs =>
    match parseValue (tailCs.length + 1) tailCs with
    | some (v, _) => some v
    | none => none

/-- The fence cleanup of the gateway:
`response.text.replace("```json", "").replace("```", "").strip()`. -/
def cleanFences (t : String) : String :=
  pyStrip (pyReplace (pyReplace t "```json" "") "```" "")

/-- The JSON-recovery cascade of `generate_response` for an
expected-structured call: direct `json.loads`, then fence-stripped re-parse,
then first-brace extraction from the cleaned text; `none` is the path that
raises the HTTP 500 malformed-output error. -/
def parseCascade (t : String) : Option Json :=
  match loads t with
  | some v => some v
  | none =>
    let cleaned := cleanFences t
    match loads cleaned with
    | some v => some v
    | none => firstBraceDecode cleaned

/-! ## The inference gateway (`backend/utils/gemini_client.py`) -/

/-- A content part of a gateway request: a prompt text, or a PIL image
carrying its pixel dimensions and pixel data (the gateway reads only the
dimensions, via `item.size`). -/
inductive Part where
  | text (s : String)
  | image (width height : Nat) (pixels : List Nat)

/-- The per-item canonicalization of `_get_prompt_hash`: a text part hashes
as itself, an image part through the placeholder built from `item.size`,
which Python renders as `<IMAGE:(w, h)>`. -/
def hashableItem : Part → String
  | .text s => s
  | .image w h _ => "<IMAGE:(" ++ Nat.repr w ++ ", " ++ Nat.repr h ++ ")>"

/-- One escaped character of a JSON string literal, as `json.dumps` emits. -/
def jsonEscapeChar (c : Char) : List Char :=
  if c = '"' then ['\\', '"']
  else if c = '\\' then ['\\', '\\']
  else if c = '\n' then ['\\', 'n']
  else if c = '\t' then ['\\', 't']
  else if c = '\r' then ['\\', 'r']
  else [c]

/-- Concatenation of character runs. -/
def concatChars : List (List Char) → List Char
  | [] => []
  | l :: ls => l ++ concatChars ls

/-- A quoted JSON string literal. -/
def jsonQuote (s : String) : String :=
  String.mk ('"' :: (concatChars (s.data.map jsonEscapeChar) ++ ['"']))

/-- `json.dumps` of a list of strings (with its default `", "` separator;
`sort_keys` is vacuous on a list). -/
def dumpsStrList (xs : List String) : String :=
  "[" ++ String.intercalate ", " (xs.map jsonQuote) ++ "]"

/-- Serialization of the `response_schema` argument: Python falsy (absent)
schemas dump to the empty string, a provided schema to its canonical dump,
which this model carries pre-serialized. -/
def schemaDump : Option String → String
  | none => ""
  | some s => s

/-- Deterministic rendering of the float `temperature` field of the key. -/
def tempRepr (t : ℚ) : String :=
  toString t.num ++ "/" ++ Nat.repr t.den

/-- `_get_prompt_hash`: the canonical cache-key string.  The SHA-256 digest
of the source is a deterministic function of exactly this key, so equality
of keys decides equality of digests; the digest is therefore modelled by the
key itself (no claim relies on collisions). -/
def promptHash (prompt : List Part) (schemaStr : Option String) (temp : ℚ) (maxTok : Nat) : String :=
  dumpsStrList (prompt.map hashableItem) ++ "|" ++ schemaDump schemaStr ++ "|"
    ++ tempRepr temp ++ "|" ++ Nat.repr maxTok

/-- The `response_schema or (isinstance(prompt, list) and "JSON" in str(prompt))`
test: the Python repr of the prompt list contains the substring `JSON`
exactly when some text part does (a PIL image repr never does). -/
def expectsJson (prompt : List Part) (schemaStr : Option String) : Bool :=
  schemaStr.isSome || prompt.any (fun p => match p with
    | .text s => strContains s "JSON"
    | .image _ _ _ => false)

/-- `_is_quota_error`: substring match over the lower-cased error text. -/
def isQuotaError (e : String) : Bool :=
  (["429", "resource_exhausted", "quota"] : List String).any
    (fun ind => strContains (lowerStr e) ind)

/-- `_is_transient_error`: substring match over the lower-cased error text. -/
def isTransientError (e : String) : Bool :=
  (["timeout", "500", "502", "503", "504"] : List String).any
    (fun ind => strContains (lowerStr e) ind)

/-- `_quota_exhausted_response`: the structured quota-exhausted marker. -/
def quotaExhaustedJson : Json :=
  .obj [("error", .str "AI temporarily unavailable (free tier quota reached)"),
        ("retry_after", .str "tomorrow")]

/-- `MAX_CALLS_PER_MINUTE`. -/
def MAX_CALLS_PER_MINUTE : Nat := 5

/-- `CACHE_TTL_SECONDS`. -/
def CACHE_TTL_SECONDS : Nat := 300

/-- The module-level mutable state of `gemini_client.py`: the circuit flag
`GEMINI_DISABLED`, the sliding window `rate_limit_calls` (timestamps in
seconds), `api_call_count`, `rpd_consumed_today`, and `prompt_cache` as an
association list from key to response and storage time. -/
structure GenState where
  disabled : Bool
  rateWindow : List Nat
  apiCallCount : Nat
  rpdConsumed : Nat
  cache : List (String × Json × Nat)

/-- Lookup of `prompt_cache[hash]`. -/
def cacheLookup (h : String) (cache : List (String × Json × Nat)) : Option (Json × Nat) :=
  match cache.find? (fun e => e.1 == h) with
  | some (_, v, t) => some (v, t)
  | none => none

/-- `_check_cache`: a fresh entry is returned with the cache untouched, an
expired entry is deleted (lazy eviction); the pair is the hit, if any, and
the resulting cache. -/
def checkCache (h : String) (cache : List (String × Json × Nat)) (now : Nat) :
    Option Json × List (String × Json × Nat) :=
  match cacheLookup h cache with
  | some (v, t) =>
      if now - t < CACHE_TTL_SECONDS then (some v, cache)
      else (none, cache.filter (fun e => !(e.1 == h)))
  | none => (none, cache)

/-- `_store_cache`: dictionary assignment under the key. -/
def storeCache (h : String) (v : Json) (now : Nat) (cache : List (String × Json × Nat)) :
    List (String × Json × Nat) :=
  (h, v, now) :: cache.filter (fun e => !(e.1 == h))

/-- The pruning step of `_check_rate_limit`: keep the timestamps of the
trailing 60 seconds. -/
def pruneWindow (w : List Nat) (now : Nat) : List Nat :=
  w.filter (fun ts => decide (now - ts < 60))

/-- Outcome of one remote `client.models.generate_content` invocation. -/
inductive ProvResult where
  | text (s : String)
  | raise (err : String)

/-- Parsing applied in the loop body to a provider text: the JSON-recovery
cascade when a structured result is expected, else the raw text wrapped as
`{"text": ...}`. -/
def parseResult (expects : Bool) (t : String) : Option Json :=
  if expects then parseCascade t else some (.obj [("text", .str t)])

/-- How one run of the retry loop of `generate_response` ended. -/
inductive LoopOutcome where
  | success (v : Json)
  | quotaTripped
  | malformed
  | unavailable (err : String)
  | exhausted

/-- Result of the retry loop: its outcome, the number of remote invocations
performed, and the number of `time.sleep(2)` backoffs taken. -/
structure LoopResult where
  outcome : LoopOutcome
  calls : Nat
  sleeps : Nat

/-- The `for attempt in range(max_retries + 1)` loop of `generate_response`
with `max_retries = 1`; `attempt` is the 0-based attempt index and `left`
the remaining iterations (entered with `left = 2`).  A quota-classified
error never retries; a transient error retries while `attempt <
max_retries`, i.e. while a further iteration would remain after this one;
anything else raises the 503 path. -/
def geminiLoop (expects : Bool) (provider : Nat → ProvResult) : Nat → Nat → LoopResult
  | _, 0 => ⟨.exhausted, 0, 0⟩
  | attempt, left + 1 =>
    match provider attempt with
    | .text t =>
      match parseResult expects t with
      | some v => ⟨.success v, 1, 0⟩
      | none => ⟨.malformed, 1, 0⟩
    | .raise e =>
      if isQuotaError e then ⟨.quotaTripped, 1, 0⟩
      else if 0 < left ∧ isTransientError e = true then
        let r := geminiLoop expects provider (attempt + 1) left
        ⟨r.outcome, r.calls + 1, r.sleeps + 1⟩
      else ⟨.unavailable e, 1, 0⟩

/-- What `generate_response` hands back: a returned dictionary, or a raised
`HTTPException` with its status code and detail. -/
inductive GenOutcome where
  | result (v : Json)
  | httpError (status : Nat) (detail : String)

/-- A full call result: the outcome, the module state afterwards, the number
of remote invocations performed, and the number of backoff sleeps taken. -/
structure GenResult where
  outcome : GenOutcome
  state : GenState
  remoteCalls : Nat
  sleeps : Nat

/-- `GeminiClient.generate_response`, as a function of the request, the call
time (seconds), the provider behaviour per attempt index, and the module
state.  Step order mirrors the source: circuit check, cache lookup,
rate-limit admission, record, retry loop, cache store. -/
def generateResponse (prompt : List Part) (schemaStr : Option String) (temp : ℚ)
    (maxTok : Nat) (now : Nat) (provider : Nat → ProvResult) (s : GenState) : GenResult :=
  if s.disabled then ⟨.result quotaExhaustedJson, s, 0, 0⟩
  else
    let h := promptHash prompt schemaStr temp maxTok
    let cc := checkCache h s.cache now
    match cc.1 with
    | some v => ⟨.result v, { s with cache := cc.2 }, 0, 0⟩
    | none =>
      let pruned := pruneWindow s.rateWindow now
      if MAX_CALLS_PER_MINUTE ≤ pruned.length then
        ⟨.httpError 429 "Local rate limit exceeded (max 5 requests per minute)",
          { s with cache := cc.2, rateWindow := pruned }, 0, 0⟩
      else
        let s2 : GenState :=
          { s with
              cache := cc.2, rateWindow := pruned ++ [now],
              apiCallCount := s.apiCallCount + 1, rpdConsumed := s.rpdConsumed + 1 }
        let lr := geminiLoop (expectsJson prompt schemaStr) provider 0 2
        match lr.outcome with
        | .success v =>
            ⟨.result v, { s2 with cache := storeCache h v now s2.cache }, lr.calls, lr.sleeps⟩
        | .quotaTripped =>
            ⟨.result quotaExhaustedJson, { s2 with disabled := true }, lr.calls, lr.sleeps⟩
        | .malformed =>
            ⟨.httpError 500 "Gemini returned invalid JSON format", s2, lr.calls, lr.sleeps⟩
        | .unavailable e =>
            ⟨.httpError 503 ("Gemini API unavailable: " ++ e), s2, lr.calls, lr.sleeps⟩
        | .exhausted => ⟨.result (.obj []), s2, lr.calls, lr.sleeps⟩

/-- `reset_circuit_breaker`. -/
def resetCircuitBreaker (s : GenState) : GenState :=
  { s with disabled := false }

/-! ## The gate pipeline (`backend/main.py`), the spatial gate
(`backend/agents/spatial_mapper.py`) and the response synthesizer
(`backend/utils/response_builder.py`).

Dictionaries produced by the provider are modelled as records over the
fields the pipeline reads; an `Option` field models a value that can be
absent or `None` (for which the source's `dict.get` defaults apply). -/

/-- Python truthiness of an optional string (`None` and `""` are falsy). -/
def optTruthy : Option String → Bool
  | none => false
  | some s => !(s == "")

/-- The slice of the combined-analysis `device` record the pipeline reads. -/
structure DeviceInfo where
  deviceType : String
  deviceConfidence : ℚ
  confidenceLevel : Option String
  components : List String
  reasoning : String
  errorField : Option String
  needsClarification : Bool
  clarifyingQuestions : List String
  suggestions : List String

/-- The slice of the combined-analysis `query` record the pipeline reads. -/
structure QueryInfo where
  queryType : String
  targetComponent : Option String
  needsLocalization : Bool
  needsSteps : Bool
  actionRequested : String

/-- `HIGH_CONFIDENCE_THRESHOLD` of `main.py`. -/
def HIGH_CONFIDENCE_THRESHOLD : ℚ := 0.6

/-- `MEDIUM_CONFIDENCE_THRESHOLD` of `main.py`. -/
def MEDIUM_CONFIDENCE_THRESHOLD : ℚ := 0.3

/-- The Gate-2 fallback bucketing of `troubleshoot` (main.py lines 179-184):
run when the provider supplied no (truthy) `confidence_level`. -/
def bucketConfidence (c : ℚ) : String :=
  if c ≥ HIGH_CONFIDENCE_THRESHOLD then "high"
  else if c ≥ MEDIUM_CONFIDENCE_THRESHOLD then "medium"
  else "low"

/-- `confidence_level = device_info.get("confidence_level"); if not
confidence_level: <bucket>` — the pipeline's confidence-level resolution. -/
def resolveConfidenceLevel (providerLevel : Option String) (c : ℚ) : String :=
  match providerLevel with
  | some lvl => if lvl = "" then bucketConfidence c else lvl
  | none => bucketConfidence c

/-- The confidence badge of `format_response_for_display`
(response_builder.py lines 347-352). -/
def confidenceBadge (c : ℚ) : String :=
  if c ≥ 0.6 then "high"
  else if c ≥ 0.3 then "medium"
  else "low"

/-- `SpatialMapper.should_attempt_localization`: the gate deciding whether
the localization sub-flow runs, with its reason string. -/
def shouldAttemptLocalization (d : DeviceInfo) (q : QueryInfo) : Bool × String :=
  if d.deviceConfidence < 0.3 then
    (false, "Device identification confidence too low for spatial localization")
  else if d.deviceType = "Unknown" ∨ d.deviceType = "not_a_device" then
    (false, "Cannot localize components on unidentified or non-device images")
  else if !q.needsLocalization && !optTruthy q.targetComponent then
    (false, "Query does not require component localization")
  else
    (true, "Localization appropriate")

/-- How Gate 4 continues in `troubleshoot` (main.py lines 256-267) once
localization ran and reported its visibility verdict. -/
inductive Gate4Decision where
  | terminateComponentNotFound
  | continuePipeline

/-- The Gate-4 continuation branch: an invisible target terminates the
request with the component-not-found response exactly for a `locate` query
type; otherwise the pipeline continues. -/
def gate4Decision (q : QueryInfo) (componentVisible : Bool) : Gate4Decision :=
  if !componentVisible then
    if q.queryType = "locate" then .terminateComponentNotFound
    else .continuePipeline
  else .continuePipeline

/-- The Gate-5 skip test of `troubleshoot` (main.py lines 297-301). -/
def shouldSkipSteps (q : QueryInfo) : Bool :=
  q.queryType == "locate" && q.needsSteps == false &&
    !((["remove", "replace", "install", "repair", "fix"] : List String).contains
        (lowerStr q.actionRequested))

/-- The slice of the step-generation record the synthesizer reads. -/
structure StepInfo where
  issueDiagnosis : String
  troubleshootingSteps : List Json
  audioInstructions : String
  quotaInfo : Option String
  errorField : Option String
  needsClarification : Bool
  warnings : List String
  whenToSeekHelp : Option String

/-- The placeholder `step_info` installed when Gate 5 is skipped
(main.py lines 305-309). -/
def skippedStepInfo : StepInfo :=
  { issueDiagnosis := "Location identified.", troubleshootingSteps := [],
    audioInstructions := "", quotaInfo := none, errorField := none,
    needsClarification := false, warnings := [], whenToSeekHelp := none }

/-- A pixel-space bounding box, `spatial_info["pixel_coords"]`. -/
structure PixelBox where
  xMin : Int
  yMin : Int
  xMax : Int
  yMax : Int

/-- The `spatial_context` dictionary assembled by `troubleshoot`
(main.py lines 279-290) and read by the synthesizer. -/
structure SpatialContext where
  componentName : Option String
  component : Option String
  spatialDescription : Option String
  componentVisible : Bool
  visibleAlternatives : List String
  typicalLocation : String
  pixelCoords : Option PixelBox

/-- `_determine_status`. -/
def determineStatus (d : DeviceInfo) (sp : SpatialContext) (st : StepInfo) : String :=
  if optTruthy st.quotaInfo then "success"
  else if optTruthy d.errorField ∨ optTruthy st.errorField then "error"
  else if d.deviceConfidence < 0.3 ∨ d.needsClarification then "low_confidence"
  else if d.deviceType = "Unknown" ∨ d.deviceType = "not_a_device" then "invalid_image"
  else if st.needsClarification then "needs_clarification"
  else if optTruthy sp.componentName ∧ !sp.componentVisible then "component_not_located"
  else "success"

/-- The assembled response of `build_troubleshoot_response`, with the
scenario-specific fields that `_add_scenario_fields` may populate. -/
structure TroubleshootResponse where
  status : String
  deviceIdentified : String
  deviceConfidence : ℚ
  confidenceLevel : String
  component : Option String
  spatialDescription : String
  boundingBox : Option PixelBox
  issueDiagnosis : String
  troubleshootingSteps : List Json
  audioInstructions : String
  clarifyingQuestions : List String
  suggestions : List String
  generalSafetyTip : Option String
  visibleAlternatives : List String
  typicalLocation : Option String
  detectedComponents : List String
  reasoning : Option String
  quotaMessage : Option String
  queryUnderstood : Option (String × Option String × String)
  warnings : List String
  whenToSeekHelp : Option String

/-- `max(0, min(v, bound))`, the per-coordinate clamp of the synthesizer. -/
def clampCoord (v bound : Int) : Int :=
  max 0 (min v bound)

/-- First section of `_add_scenario_fields`: clarifying questions for the
low-confidence scenario. -/
def addLowConfFields (r : TroubleshootResponse) (d : DeviceInfo) : TroubleshootResponse :=
  if r.status = "low_confidence" then
    { r with
        clarifyingQuestions := d.clarifyingQuestions,
        suggestions := d.suggestions,
        generalSafetyTip :=
          some "Before working on any electronic device, always disconnect power first." }
  else r

/-- Second section of `_add_scenario_fields`: alternatives for the
component-not-found scenario. -/
def addNotFoundFields (r : TroubleshootResponse) (sp : SpatialContext) : TroubleshootResponse :=
  if r.status = "component_not_located" then
    { r with
        visibleAlternatives := sp.visibleAlternatives,
        typicalLocation := some sp.typicalLocation }
  else r

/-- Detected-components transparency section of `_add_scenario_fields`. -/
def addComponentsField (r : TroubleshootResponse) (d : DeviceInfo) : TroubleshootResponse :=
  if d.components ≠ [] then { r with detectedComponents := d.components } else r

/-- Reasoning transparency section of `_add_scenario_fields`. -/
def addReasoningField (r : TroubleshootResponse) (d : DeviceInfo) : TroubleshootResponse :=
  if d.reasoning ≠ "" then { r with reasoning := some d.reasoning } else r

/-- Quota-info section of `_add_scenario_fields`. -/
def addQuotaField (r : TroubleshootResponse) (st : StepInfo) : TroubleshootResponse :=
  if optTruthy st.quotaInfo then
    { r with
        quotaMessage := some "Device identified successfully. Detailed steps temporarily unavailable (AI quota reached)." }
  else r

/-- Query-understanding section of `_add_scenario_fields`. -/
def addQueryField (r : TroubleshootResponse) (q : Option QueryInfo) : TroubleshootResponse :=
  match q with
  | some qi => { r with queryUnderstood := some (qi.queryType, qi.targetComponent, qi.actionRequested) }
  | none => r

/-- Warnings section of `_add_scenario_fields`. -/
def addWarningsField (r : TroubleshootResponse) (st : StepInfo) : TroubleshootResponse :=
  if st.warnings ≠ [] then { r with warnings := st.warnings } else r

/-- When-to-seek-help section of `_add_scenario_fields`. -/
def addSeekHelpField (r : TroubleshootResponse) (st : StepInfo) : TroubleshootResponse :=
  if optTruthy st.whenToSeekHelp then { r with whenToSeekHelp := st.whenToSeekHelp } else r

/-- `_add_scenario_fields`: its sections applied in source order. -/
def addScenarioFields (r : TroubleshootResponse) (d : DeviceInfo) (sp : SpatialContext)
    (st : StepInfo) (q : Option QueryInfo) : TroubleshootResponse :=
  addSeekHelpField
    (addWarningsField
      (addQueryField
        (addQuotaField
          (addReasoningField
            (addComponentsField
              (addNotFoundFields (addLowConfFields r d) sp) d) d) st) q) st) st

/-- `build_troubleshoot_response` (response_builder.py lines 23-96): device
fields, component preference, bounding-box clamping to the image bounds,
step passthrough, status determination, scenario fields. -/
def buildTroubleshootResponse (d : DeviceInfo) (sp : SpatialContext) (st : StepInfo)
    (imageDims : Int × Int) (q : Option QueryInfo) : TroubleshootResponse :=
  let confidenceLevel := match d.confidenceLevel with
    | some lvl => lvl
    | none => "low"
  let component := if optTruthy sp.componentName then sp.componentName else sp.component
  let spatialDescription := match sp.spatialDescription with
    | some sdesc => sdesc
    | none => "Location not identified."
  let bbox : Option PixelBox :=
    if sp.componentVisible then
      match sp.pixelCoords with
      | some pb =>
          some { xMin := clampCoord pb.xMin imageDims.1,
                 yMin := clampCoord pb.yMin imageDims.2,
                 xMax := clampCoord pb.xMax imageDims.1,
                 yMax := clampCoord pb.yMax imageDims.2 }
      | none => none
    else none
  let base : TroubleshootResponse :=
    { status := determineStatus d sp st,
      deviceIdentified := d.deviceType,
      deviceConfidence := d.deviceConfidence,
      confidenceLevel := confidenceLevel,
      component := component,
      spatialDescription := spatialDescription,
      boundingBox := bbox,
      issueDiagnosis := st.issueDiagnosis,
      troubleshootingSteps := st.troubleshootingSteps,
      audioInstructions := st.audioInstructions,
      clarifyingQuestions := [], suggestions := [], generalSafetyTip := none,
      visibleAlternatives := [], typicalLocation := none, detectedComponents := [],
      reasoning := none, quotaMessage := none, queryUnderstood := none,
      warnings := [], whenToSeekHelp := none }
  addScenarioFields base d sp st q

/-! ## Helper lemmas -/

/-- No section of `_add_scenario_fields` touches the narration field. -/
@[simp] theorem addLowConfFields_audio (r : TroubleshootResponse) (d : DeviceInfo) :
    (addLowConfFields r d).audioInstructions = r.audioInstructions := by
  unfold addLowConfFields; split_ifs <;> rfl

@[simp] theorem addNotFoundFields_audio (r : TroubleshootResponse) (sp : SpatialContext) :
    (addNotFoundFields r sp).audioInstructions = r.audioInstructions := by
  unfold addNotFoundFields; split_ifs <;> rfl

@[simp] theorem addComponentsField_audio (r : TroubleshootResponse) (d : DeviceInfo) :
    (addComponentsField r d).audioInstructions = r.audioInstructions := by
  unfold addComponentsField; split_ifs <;> rfl

@[simp] theorem addReasoningField_audio (r : TroubleshootResponse) (d : DeviceInfo) :
    (addReasoningField r d).audioInstructions = r.audioInstructions := by
  unfold addReasoningField; split_ifs <;> rfl

@[simp] theorem addQuotaField_audio (r : TroubleshootResponse) (st : StepInfo) :
    (addQuotaField r st).audioInstructions = r.audioInstructions := by
  unfold addQuotaField; split_ifs <;> rfl

@[simp] theorem addQueryField_audio (r : TroubleshootResponse) (q : Option QueryInfo) :
    (addQueryField r q).audioInstructions = r.audioInstructions := by
  unfold addQueryField; cases q <;> rfl

@[simp] theorem addWarningsField_audio (r : TroubleshootResponse) (st : StepInfo) :
    (addWarningsField r st).audioInstructions = r.audioInstructions := by
  unfold addWarningsField; split_ifs <;> rfl

@[simp] theorem addSeekHelpField_audio (r : TroubleshootResponse) (st : StepInfo) :
    (addSeekHelpField r st).audioInstructions = r.audioInstructions := by
  unfold addSeekHelpField; split_ifs <;> rfl

/-- `_add_scenario_fields` never touches the narration field. -/
theorem addScenarioFields_audio (r : TroubleshootResponse) (d : DeviceInfo)
    (sp : SpatialContext) (st : StepInfo) (q : Option QueryInfo) :
    (addScenarioFields r d sp st q).audioInstructions = r.audioInstructions := by
  unfold addScenarioFields
  simp

/-- No section of `_add_scenario_fields` touches the bounding box. -/
@[simp] theorem addLowConfFields_bbox (r : TroubleshootResponse) (d : DeviceInfo) :
    (addLowConfFields r d).boundingBox = r.boundingBox := by
  unfold addLowConfFields; split_ifs <;> rfl

@[simp] theorem addNotFoundFields_bbox (r : TroubleshootResponse) (sp : SpatialContext) :
    (addNotFoundFields r sp).boundingBox = r.boundingBox := by
  unfold addNotFoundFields; split_ifs <;> rfl

@[simp] theorem addComponentsField_bbox (r : TroubleshootResponse) (d : DeviceInfo) :
    (addComponentsField r d).boundingBox = r.boundingBox := by
  unfold addComponentsField; split_ifs <;> rfl

@[simp] theorem addReasoningField_bbox (r : TroubleshootResponse) (d : DeviceInfo) :
    (addReasoningField r d).boundingBox = r.boundingBox := by
  unfold addReasoningField; split_ifs <;> rfl

@[simp] theorem addQuotaField_bbox (r : TroubleshootResponse) (st : StepInfo) :
    (addQuotaField r st).boundingBox = r.boundingBox := by
  unfold addQuotaField; split_ifs <;> rfl

@[simp] theorem addQueryField_bbox (r : TroubleshootResponse) (q : Option QueryInfo) :
    (addQueryField r q).boundingBox = r.boundingBox := by
  unfold addQueryField; cases q <;> rfl

@[simp] theorem addWarningsField_bbox (r : TroubleshootResponse) (st : StepInfo) :
    (addWarningsField r st).boundingBox = r.boundingBox := by
  unfold addWarningsField; split_ifs <;> rfl

@[simp] theorem addSeekHelpField_bbox (r : TroubleshootResponse) (st : StepInfo) :
    (addSeekHelpField r st).boundingBox = r.boundingBox := by
  unfold addSeekHelpField; split_ifs <;> rfl

/-- `_add_scenario_fields` never touches the bounding box. -/
theorem addScenarioFields_bbox (r : TroubleshootResponse) (d : DeviceInfo)
    (sp : SpatialContext) (st : StepInfo) (q : Option QueryInfo) :
    (addScenarioFields r d sp st q).boundingBox = r.boundingBox := by
  unfold addScenarioFields
  simp

/-- A freshly stored entry is found by the next lookup. -/
theorem cacheLookup_storeCache (h : String) (v : Json) (t : Nat)
    (cache : List (String × Json × Nat)) :
    cacheLookup h (storeCache h v t cache) = some (v, t) := by
  simp [cacheLookup, storeCache, List.find?]

/-- The circuit-breaker short-circuit branch of `generate_response`. -/
theorem generateResponse_disabled (prompt : List Part) (schemaStr : Option String)
    (temp : ℚ) (maxTok now : Nat) (provider : Nat → ProvResult) (s : GenState)
    (hdis : s.disabled = true) :
    generateResponse prompt schemaStr temp maxTok now provider s =
      ⟨.result quotaExhaustedJson, s, 0, 0⟩ := by
  unfold generateResponse
  rw [hdis]
  rfl

/-- The cache-hit branch of `generate_response`: a fresh entry is returned
verbatim with the state untouched and no remote call. -/
theorem generateResponse_cacheHit (prompt : List Part) (schemaStr : Option String)
    (temp : ℚ) (maxTok now : Nat) (provider : Nat → ProvResult) (s : GenState)
    (v : Json) (tstored : Nat)
    (hdis : s.disabled = false)
    (hl : cacheLookup (promptHash prompt schemaStr temp maxTok) s.cache = some (v, tstored))
    (hage : now - tstored < CACHE_TTL_SECONDS) :
    generateResponse prompt schemaStr temp maxTok now provider s =
      ⟨.result v, s, 0, 0⟩ := by
  obtain ⟨sd, srw, sac, srp, sca⟩ := s
  simp only at hdis hl
  subst hdis
  unfold generateResponse
  simp [checkCache, hl, hage]

/-- The successful remote-call path of `generate_response`: cache miss,
admission granted, first attempt returns parseable text.  The result is the
parsed value, one remote call, no backoff, the timestamp appended, both
counters incremented, and the value stored in the cache. -/
theorem generateResponse_firstSuccess (prompt : List Part) (schemaStr : Option String)
    (temp : ℚ) (maxTok now : Nat) (provider : Nat → ProvResult) (s : GenState)
    (txt : String) (v : Json)
    (hdis : s.disabled = false)
    (hc : (checkCache (promptHash prompt schemaStr temp maxTok) s.cache now).1 = none)
    (hrate : (pruneWindow s.rateWindow now).length < MAX_CALLS_PER_MINUTE)
    (hp : provider 0 = .text txt)
    (hv : parseResult (expectsJson prompt schemaStr) txt = some v) :
    generateResponse prompt schemaStr temp maxTok now provider s =
      ⟨.result v,
        { s with
            cache := storeCache (promptHash prompt schemaStr temp maxTok) v now
              (checkCache (promptHash prompt schemaStr temp maxTok) s.cache now).2,
            rateWindow := pruneWindow s.rateWindow now ++ [now],
            apiCallCount := s.apiCallCount + 1,
            rpdConsumed := s.rpdConsumed + 1 },
        1, 0⟩ := by
  unfold generateResponse
  rw [hdis]
  simp only [Bool.false_eq_true, if_false]
  rw [hc]
  rw [if_neg (by omega)]
  simp only [geminiLoop, hp, hv]

/-! ## Claim theorems -/

/-- C1: once the circuit flag is OPEN, `generate_response` returns the
structured quota-exhausted marker immediately, with the module state exactly
unchanged (so no cache lookup or eviction, no rate-window append, no quota
increment) and zero remote calls — and the flag stays OPEN, so this holds
for every subsequent call until `reset_circuit_breaker` sets it back to
CLOSED; a quota-classified provider error is what trips the flag. -/
theorem C1_circuit_breaker_latch (prompt : List Part) (schemaStr : Option String)
    (temp : ℚ) (maxTok now : Nat) (provider : Nat → ProvResult) (s : GenState)
    (e : String) :
    (s.disabled = true →
      generateResponse prompt schemaStr temp maxTok now provider s =
        ⟨.result quotaExhaustedJson, s, 0, 0⟩)
    ∧ (resetCircuitBreaker s).disabled = false
    ∧ (s.disabled = false →
        (checkCache (promptHash prompt schemaStr temp maxTok) s.cache now).1 = none →
        (pruneWindow s.rateWindow now).length < MAX_CALLS_PER_MINUTE →
        provider 0 = .raise e →
        isQuotaError e = true →
        (generateResponse prompt schemaStr temp maxTok now provider s).outcome =
            .result quotaExhaustedJson
          ∧ (generateResponse prompt schemaStr temp maxTok now provider s).state.disabled = true
          ∧ (generateResponse prompt schemaStr temp maxTok now provider s).remoteCalls = 1) := by
  refine ⟨fun hdis => generateResponse_disabled _ _ _ _ _ _ _ hdis, rfl, ?_⟩
  intro hdis hc hrate hp hq
  unfold generateResponse
  rw [hdis]
  simp only [Bool.false_eq_true, if_false]
  rw [hc]
  rw [if_neg (by omega)]
  simp [geminiLoop, hp, hq]

/-- C1 witness: at an OPEN state the call short-circuits; at a CLOSED state a
quota-classified error trips the flag; the reset closes it. -/
theorem C1_witness :
    (generateResponse [.text "q"] none 1 100 10 (fun _ => .raise "quota hit")
        ⟨true, [], 0, 0, []⟩ =
      ⟨.result quotaExhaustedJson, ⟨true, [], 0, 0, []⟩, 0, 0⟩)
    ∧ (resetCircuitBreaker ⟨true, [], 0, 0, []⟩).disabled = false
    ∧ ((generateResponse [.text "q"] none 1 100 10 (fun _ => .raise "quota hit")
          ⟨false, [], 0, 0, []⟩).outcome = .result quotaExhaustedJson
        ∧ (generateResponse [.text "q"] none 1 100 10 (fun _ => .raise "quota hit")
            ⟨false, [], 0, 0, []⟩).state.disabled = true
        ∧ (generateResponse [.text "q"] none 1 100 10 (fun _ => .raise "quota hit")
            ⟨false, [], 0, 0, []⟩).remoteCalls = 1) :=
  ⟨(C1_circuit_breaker_latch [.text "q"] none 1 100 10 (fun _ => .raise "quota hit")
      ⟨true, [], 0, 0, []⟩ "quota hit").1 rfl,
   (C1_circuit_breaker_latch [.text "q"] none 1 100 10 (fun _ => .raise "quota hit")
      ⟨true, [], 0, 0, []⟩ "quota hit").2.1,
   (C1_circuit_breaker_latch [.text "q"] none 1 100 10 (fun _ => .raise "quota hit")
      ⟨false, [], 0, 0, []⟩ "quota hit").2.2 rfl rfl (by decide) rfl (by decide)⟩

/-- C2: for a call that passes the circuit and cache checks, admission prunes
the window to the trailing 60 seconds; if the pruned window already holds the
per-minute ceiling of timestamps the call is rejected with the 429
rate-limited error, appending no timestamp, incrementing neither counter and
making no remote call; an admitted call appends exactly the current
timestamp, so the stored window never exceeds the ceiling. -/
theorem C2_rate_limit_admission (prompt : List Part) (schemaStr : Option String)
    (temp : ℚ) (maxTok now : Nat) (provider : Nat → ProvResult) (s : GenState)
    (hdis : s.disabled = false)
    (hc : (checkCache (promptHash prompt schemaStr temp maxTok) s.cache now).1 = none) :
    (MAX_CALLS_PER_MINUTE ≤ (pruneWindow s.rateWindow now).length →
      (generateResponse prompt schemaStr temp maxTok now provider s).outcome =
          .httpError 429 "Local rate limit exceeded (max 5 requests per minute)"
        ∧ (generateResponse prompt schemaStr temp maxTok now provider s).state.rateWindow =
            pruneWindow s.rateWindow now
        ∧ (generateResponse prompt schemaStr temp maxTok now provider s).state.apiCallCount =
            s.apiCallCount
        ∧ (generateResponse prompt schemaStr temp maxTok now provider s).state.rpdConsumed =
            s.rpdConsumed
        ∧ (generateResponse prompt schemaStr temp maxTok now provider s).remoteCalls = 0)
    ∧ ((pruneWindow s.rateWindow now).length < MAX_CALLS_PER_MINUTE →
      (generateResponse prompt schemaStr temp maxTok now provider s).state.rateWindow =
          pruneWindow s.rateWindow now ++ [now]
        ∧ (generateResponse prompt schemaStr temp maxTok now provider s).state.rateWindow.length ≤
            MAX_CALLS_PER_MINUTE) := by
  constructor
  · intro hfull
    unfold generateResponse
    rw [hdis]
    simp only [Bool.false_eq_true, if_false]
    rw [hc]
    rw [if_pos hfull]
    exact ⟨rfl, rfl, rfl, rfl, rfl⟩
  · intro hroom
    unfold generateResponse
    rw [hdis]
    simp only [Bool.false_eq_true, if_false]
    rw [hc]
    rw [if_neg (by omega)]
    have hlen : (pruneWindow s.rateWindow now ++ [now]).length ≤ MAX_CALLS_PER_MINUTE := by
      simp only [List.length_append, List.length_cons, List.length_nil]
      unfold MAX_CALLS_PER_MINUTE at hroom ⊢
      omega
    rcases hgl : geminiLoop (expectsJson prompt schemaStr) provider 0 2 with ⟨o, calls, sl⟩
    cases o <;> exact ⟨rfl, hlen⟩

/-- C2 witness: with five fresh timestamps in the window the sixth call is
rejected without consuming quota; with an empty window the admitted call
stores a window of length one. -/
theorem C2_witness :
    ((generateResponse [.text "q"] none 1 100 10 (fun _ => .text "t")
        ⟨false, [0, 1, 2, 3, 4], 7, 7, []⟩).outcome =
          .httpError 429 "Local rate limit exceeded (max 5 requests per minute)"
      ∧ (generateResponse [.text "q"] none 1 100 10 (fun _ => .text "t")
          ⟨false, [0, 1, 2, 3, 4], 7, 7, []⟩).state.rateWindow =
            pruneWindow [0, 1, 2, 3, 4] 10
      ∧ (generateResponse [.text "q"] none 1 100 10 (fun _ => .text "t")
          ⟨false, [0, 1, 2, 3, 4], 7, 7, []⟩).state.apiCallCount = 7
      ∧ (generateResponse [.text "q"] none 1 100 10 (fun _ => .text "t")
          ⟨false, [0, 1, 2, 3, 4], 7, 7, []⟩).state.rpdConsumed = 7
      ∧ (generateResponse [.text "q"] none 1 100 10 (fun _ => .text "t")
          ⟨false, [0, 1, 2, 3, 4], 7, 7, []⟩).remoteCalls = 0)
    ∧ ((generateResponse [.text "q"] none 1 100 10 (fun _ => .text "t")
          ⟨false, [], 0, 0, []⟩).state.rateWindow = pruneWindow [] 10 ++ [10]
        ∧ (generateResponse [.text "q"] none 1 100 10 (fun _ => .text "t")
            ⟨false, [], 0, 0, []⟩).state.rateWindow.length ≤ MAX_CALLS_PER_MINUTE) :=
  ⟨(C2_rate_limit_admission [.text "q"] none 1 100 10 (fun _ => .text "t")
      ⟨false, [0, 1, 2, 3, 4], 7, 7, []⟩ rfl rfl).1 (by decide),
   (C2_rate_limit_admission [.text "q"] none 1 100 10 (fun _ => .text "t")
      ⟨false, [], 0, 0, []⟩ rfl rfl).2 (by decide)⟩

/-- C3: if a first call passes all admission checks and succeeds against the
provider, then a second call with the identical request issued within the
300-second TTL returns exactly the cached value of the first, changes no
state at all (so records nothing in the rate window and nothing in the quota
counter) and performs no remote call: one remote call in total. -/
theorem C3_cache_idempotence (prompt : List Part) (schemaStr : Option String)
    (temp : ℚ) (maxTok t1 t2 : Nat) (prov1 prov2 : Nat → ProvResult) (s : GenState)
    (txt : String) (v : Json)
    (hdis : s.disabled = false)
    (hc : (checkCache (promptHash prompt schemaStr temp maxTok) s.cache t1).1 = none)
    (hrate : (pruneWindow s.rateWindow t1).length < MAX_CALLS_PER_MINUTE)
    (hp : prov1 0 = .text txt)
    (hv : parseResult (expectsJson prompt schemaStr) txt = some v)
    (httl : t2 - t1 < CACHE_TTL_SECONDS) :
    (generateResponse prompt schemaStr temp maxTok t1 prov1 s).outcome = .result v
    ∧ (generateResponse prompt schemaStr temp maxTok t1 prov1 s).remoteCalls = 1
    ∧ generateResponse prompt schemaStr temp maxTok t2 prov2
        (generateResponse prompt schemaStr temp maxTok t1 prov1 s).state =
      ⟨.result v, (generateResponse prompt schemaStr temp maxTok t1 prov1 s).state, 0, 0⟩ := by
  have h1 := generateResponse_firstSuccess prompt schemaStr temp maxTok t1 prov1 s txt v
    hdis hc hrate hp hv
  rw [h1]
  refine ⟨rfl, rfl, ?_⟩
  exact generateResponse_cacheHit prompt schemaStr temp maxTok t2 prov2 _ v t1 hdis
    (cacheLookup_storeCache _ v t1 _) httl

/-- C3 witness: a concrete repeated request within the TTL is answered from
the cache with zero additional remote calls and unchanged state. -/
theorem C3_witness :
    (generateResponse [.text "JSON q"] none 1 50 10 (fun _ => .text "\x7b\"r\": 5\x7d")
        ⟨false, [], 0, 0, []⟩).outcome = .result (.obj [("r", .num "5")])
    ∧ (generateResponse [.text "JSON q"] none 1 50 10 (fun _ => .text "\x7b\"r\": 5\x7d")
        ⟨false, [], 0, 0, []⟩).remoteCalls = 1
    ∧ generateResponse [.text "JSON q"] none 1 50 20 (fun _ => .raise "should not be called")
        (generateResponse [.text "JSON q"] none 1 50 10 (fun _ => .text "\x7b\"r\": 5\x7d")
          ⟨false, [], 0, 0, []⟩).state =
      ⟨.result (.obj [("r", .num "5")]),
       (generateResponse [.text "JSON q"] none 1 50 10 (fun _ => .text "\x7b\"r\": 5\x7d")
         ⟨false, [], 0, 0, []⟩).state, 0, 0⟩ :=
  C3_cache_idempotence [.text "JSON q"] none 1 50 10 20
    (fun _ => .text "\x7b\"r\": 5\x7d") (fun _ => .raise "should not be called")
    ⟨false, [], 0, 0, []⟩ "\x7b\"r\": 5\x7d" (.obj [("r", .num "5")])
    rfl rfl (by decide) rfl rfl (by decide)

/-- Two content parts that the cache-key canonicalization cannot tell apart:
equal text, or images of equal dimensions with arbitrary pixel content. -/
inductive SameProxy : Part → Part → Prop where
  | text (s : String) : SameProxy (.text s) (.text s)
  | image (w h : Nat) (px1 px2 : List Nat) : SameProxy (.image w h px1) (.image w h px2)

/-- The canonical item of parts related by `SameProxy` coincides. -/
theorem hashableItem_sameProxy {p1 p2 : Part} (h : SameProxy p1 p2) :
    hashableItem p1 = hashableItem p2 := by
  cases h <;> rfl

/-- Pointwise `SameProxy` prompts canonicalize identically. -/
theorem map_hashableItem_eq {l1 l2 : List Part} (h : List.Forall₂ SameProxy l1 l2) :
    l1.map hashableItem = l2.map hashableItem := by
  induction h with
  | nil => rfl
  | cons hh _ ih => simp only [List.map_cons, hashableItem_sameProxy hh, ih]

/-- C10: the request hash reads an image only through its dimensions: two
prompts whose images differ in pixel content but agree in width and height
(and whose text parts, schema, temperature and token budget agree) hash to
the same key, so the second request — issued within the TTL after the first
succeeded — is served the first request's cached response with no remote
call and no state change. -/
theorem C10_cache_key_dimension_proxy (p1 p2 : List Part) (schemaStr : Option String)
    (temp : ℚ) (maxTok t1 t2 : Nat) (prov1 prov2 : Nat → ProvResult) (s : GenState)
    (txt : String) (v : Json)
    (hpp : List.Forall₂ SameProxy p1 p2)
    (hdis : s.disabled = false)
    (hc : (checkCache (promptHash p1 schemaStr temp maxTok) s.cache t1).1 = none)
    (hrate : (pruneWindow s.rateWindow t1).length < MAX_CALLS_PER_MINUTE)
    (hp : prov1 0 = .text txt)
    (hv : parseResult (expectsJson p1 schemaStr) txt = some v)
    (httl : t2 - t1 < CACHE_TTL_SECONDS) :
    promptHash p1 schemaStr temp maxTok = promptHash p2 schemaStr temp maxTok
    ∧ (generateResponse p1 schemaStr temp maxTok t1 prov1 s).outcome = .result v
    ∧ generateResponse p2 schemaStr temp maxTok t2 prov2
        (generateResponse p1 schemaStr temp maxTok t1 prov1 s).state =
      ⟨.result v, (generateResponse p1 schemaStr temp maxTok t1 prov1 s).state, 0, 0⟩ := by
  have hhash : promptHash p1 schemaStr temp maxTok = promptHash p2 schemaStr temp maxTok := by
    unfold promptHash
    rw [map_hashableItem_eq hpp]
  have h1 := generateResponse_firstSuccess p1 schemaStr temp maxTok t1 prov1 s txt v
    hdis hc hrate hp hv
  rw [h1]
  refine ⟨hhash, rfl, ?_⟩
  exact generateResponse_cacheHit p2 schemaStr temp maxTok t2 prov2 _ v t1 hdis
    (by rw [← hhash]; exact cacheLookup_storeCache _ v t1 _) httl

/-- C10 witness: two images with the same 4 × 3 dimensions but different
pixel contents share a hash, and the second request is served from cache. -/
theorem C10_witness :
    promptHash [.text "JSON q", .image 4 3 [0, 0]] none 1 50 =
      promptHash [.text "JSON q", .image 4 3 [9, 9]] none 1 50
    ∧ (generateResponse [.text "JSON q", .image 4 3 [0, 0]] none 1 50 10
        (fun _ => .text "\x7b\"r\": 5\x7d") ⟨false, [], 0, 0, []⟩).outcome =
          .result (.obj [("r", .num "5")])
    ∧ generateResponse [.text "JSON q", .image 4 3 [9, 9]] none 1 50 20
        (fun _ => .raise "should not be called")
        (generateResponse [.text "JSON q", .image 4 3 [0, 0]] none 1 50 10
          (fun _ => .text "\x7b\"r\": 5\x7d") ⟨false, [], 0, 0, []⟩).state =
      ⟨.result (.obj [("r", .num "5")]),
       (generateResponse [.text "JSON q", .image 4 3 [0, 0]] none 1 50 10
         (fun _ => .text "\x7b\"r\": 5\x7d") ⟨false, [], 0, 0, []⟩).state, 0, 0⟩ :=
  C10_cache_key_dimension_proxy
    [.text "JSON q", .image 4 3 [0, 0]] [.text "JSON q", .image 4 3 [9, 9]]
    none 1 50 10 20 (fun _ => .text "\x7b\"r\": 5\x7d") (fun _ => .raise "should not be called")
    ⟨false, [], 0, 0, []⟩ "\x7b\"r\": 5\x7d" (.obj [("r", .num "5")])
    (List.Forall₂.cons (SameProxy.text "JSON q")
      (List.Forall₂.cons (SameProxy.image 4 3 [0, 0] [9, 9]) List.Forall₂.nil))
    rfl rfl (by decide) rfl rfl (by decide)

/-- C7: for an expected-structured call, recovery of non-JSON provider text
proceeds in exactly the source order — direct parse; then code-fence
stripping and re-parse; then decoding the first complete object from the
first opening brace of the cleaned text, ignoring trailing text — and when
every stage fails, the gateway raises the terminal 500 malformed-output
error instead of returning any value as a success. -/
theorem C7_malformed_output_recovery (t : String) (v : Json) :
    (loads t = some v → parseCascade t = some v)
    ∧ (loads t = none → loads (cleanFences t) = some v → parseCascade t = some v)
    ∧ (loads t = none → loads (cleanFences t) = none →
        parseCascade t = firstBraceDecode (cleanFences t))
    ∧ (∀ (prompt : List Part) (schemaStr : Option String) (temp : ℚ)
        (maxTok now : Nat) (provider : Nat → ProvResult) (s : GenState),
        s.disabled = false →
        (checkCache (promptHash prompt schemaStr temp maxTok) s.cache now).1 = none →
        (pruneWindow s.rateWindow now).length < MAX_CALLS_PER_MINUTE →
        provider 0 = .text t →
        expectsJson prompt schemaStr = true →
        parseCascade t = none →
        (generateResponse prompt schemaStr temp maxTok now provider s).outcome =
            .httpError 500 "Gemini returned invalid JSON format"
          ∧ (generateResponse prompt schemaStr temp maxTok now provider s).remoteCalls = 1) := by
  refine ⟨?_, ?_, ?_, ?_⟩
  · intro h1
    unfold parseCascade
    rw [h1]
  · intro h1 h2
    unfold parseCascade
    rw [h1]
    simp only [h2]
  · intro h1 h2
    unfold parseCascade
    rw [h1]
    simp only [h2]
  · intro prompt schemaStr temp maxTok now provider s hdis hc hrate hp hexp hfail
    unfold generateResponse
    rw [hdis]
    simp only [Bool.false_eq_true, if_false]
    rw [hc]
    rw [if_neg (by omega)]
    simp [geminiLoop, hp, parseResult, hexp, hfail]

/-- C7 witness: each recovery stage exercised on concrete provider texts —
a directly valid document, a fenced document, a document preceded by prose,
and an unrecoverable text that raises the 500 error. -/
theorem C7_witness :
    parseCascade "\x7b\"a\": 1\x7d" = some (.obj [("a", .num "1")])
    ∧ parseCascade "```json\n\x7b\"a\": 1\x7d\n```" = some (.obj [("a", .num "1")])
    ∧ parseCascade "Sure! \x7b\"a\": 1\x7d trailing" =
        firstBraceDecode (cleanFences "Sure! \x7b\"a\": 1\x7d trailing")
    ∧ ((generateResponse [.text "JSON q"] none 1 50 10 (fun _ => .text "no object here")
          ⟨false, [], 0, 0, []⟩).outcome =
            .httpError 500 "Gemini returned invalid JSON format"
        ∧ (generateResponse [.text "JSON q"] none 1 50 10 (fun _ => .text "no object here")
            ⟨false, [], 0, 0, []⟩).remoteCalls = 1) :=
  ⟨(C7_malformed_output_recovery "\x7b\"a\": 1\x7d" (.obj [("a", .num "1")])).1 rfl,
   (C7_malformed_output_recovery "```json\n\x7b\"a\": 1\x7d\n```"
      (.obj [("a", .num "1")])).2.1 rfl rfl,
   (C7_malformed_output_recovery "Sure! \x7b\"a\": 1\x7d trailing" .null).2.2.1 rfl rfl,
   (C7_malformed_output_recovery "no object here" .null).2.2.2 [.text "JSON q"] none 1 50 10
     (fun _ => .text "no object here") ⟨false, [], 0, 0, []⟩ rfl rfl (by decide) rfl rfl rfl⟩

/-- C8: an admitted call whose first remote attempt raises a non-quota error
is retried exactly once — after one fixed backoff sleep — when the error is
transient; a failing retry, or a first error that is neither transient nor
quota-classified, surfaces the 503 service-unavailable error with no further
attempts. -/
theorem C8_transient_retry_policy (prompt : List Part) (schemaStr : Option String)
    (temp : ℚ) (maxTok now : Nat) (provider : Nat → ProvResult) (s : GenState)
    (e1 : String)
    (hdis : s.disabled = false)
    (hc : (checkCache (promptHash prompt schemaStr temp maxTok) s.cache now).1 = none)
    (hrate : (pruneWindow s.rateWindow now).length < MAX_CALLS_PER_MINUTE)
    (hp0 : provider 0 = .raise e1)
    (hq1 : isQuotaError e1 = false) :
    (isTransientError e1 = true →
      (∀ (txt : String) (v : Json), provider 1 = .text txt →
        parseResult (expectsJson prompt schemaStr) txt = some v →
        (generateResponse prompt schemaStr temp maxTok now provider s).outcome = .result v
          ∧ (generateResponse prompt schemaStr temp maxTok now provider s).remoteCalls = 2
          ∧ (generateResponse prompt schemaStr temp maxTok now provider s).sleeps = 1)
      ∧ (∀ e2 : String, provider 1 = .raise e2 → isQuotaError e2 = false →
        (generateResponse prompt schemaStr temp maxTok now provider s).outcome =
            .httpError 503 ("Gemini API unavailable: " ++ e2)
          ∧ (generateResponse prompt schemaStr temp maxTok now provider s).remoteCalls = 2
          ∧ (generateResponse prompt schemaStr temp maxTok now provider s).sleeps = 1))
    ∧ (isTransientError e1 = false →
      (generateResponse prompt schemaStr temp maxTok now provider s).outcome =
          .httpError 503 ("Gemini API unavailable: " ++ e1)
        ∧ (generateResponse prompt schemaStr temp maxTok now provider s).remoteCalls = 1
        ∧ (generateResponse prompt schemaStr temp maxTok now provider s).sleeps = 0) := by
  constructor
  · intro ht
    constructor
    · intro txt v hp1 hv
      unfold generateResponse
      rw [hdis]
      simp only [Bool.false_eq_true, if_false]
      rw [hc]
      rw [if_neg (by omega)]
      simp [geminiLoop, hp0, hp1, hq1, ht, hv]
    · intro e2 hp1 hq2
      unfold generateResponse
      rw [hdis]
      simp only [Bool.false_eq_true, if_false]
      rw [hc]
      rw [if_neg (by omega)]
      simp [geminiLoop, hp0, hp1, hq1, hq2, ht]
  · intro ht
    unfold generateResponse
    rw [hdis]
    simp only [Bool.false_eq_true, if_false]
    rw [hc]
    rw [if_neg (by omega)]
    simp [geminiLoop, hp0, hq1, ht]

/-- C8 witness: a timeout followed by a good answer succeeds with two remote
calls and one backoff; a timeout followed by a 503 surfaces the 503 after
exactly two calls; a non-transient error surfaces the 503 after one call. -/
theorem C8_witness :
    ((generateResponse [.text "JSON q"] none 1 50 10
        (fun a => if a = 0 then .raise "timeout" else .text "\x7b\"k\": 2\x7d")
        ⟨false, [], 0, 0, []⟩).outcome = .result (.obj [("k", .num "2")])
      ∧ (generateResponse [.text "JSON q"] none 1 50 10
          (fun a => if a = 0 then .raise "timeout" else .text "\x7b\"k\": 2\x7d")
          ⟨false, [], 0, 0, []⟩).remoteCalls = 2
      ∧ (generateResponse [.text "JSON q"] none 1 50 10
          (fun a => if a = 0 then .raise "timeout" else .text "\x7b\"k\": 2\x7d")
          ⟨false, [], 0, 0, []⟩).sleeps = 1)
    ∧ ((generateResponse [.text "JSON q"] none 1 50 10
          (fun a => if a = 0 then .raise "timeout" else .raise "503 unavailable")
          ⟨false, [], 0, 0, []⟩).outcome =
            .httpError 503 ("Gemini API unavailable: " ++ "503 unavailable")
        ∧ (generateResponse [.text "JSON q"] none 1 50 10
            (fun a => if a = 0 then .raise "timeout" else .raise "503 unavailable")
            ⟨false, [], 0, 0, []⟩).remoteCalls = 2
        ∧ (generateResponse [.text "JSON q"] none 1 50 10
            (fun a => if a = 0 then .raise "timeout" else .raise "503 unavailable")
            ⟨false, [], 0, 0, []⟩).sleeps = 1)
    ∧ ((generateResponse [.text "JSON q"] none 1 50 10 (fun _ => .raise "boom")
          ⟨false, [], 0, 0, []⟩).outcome =
            .httpError 503 ("Gemini API unavailable: " ++ "boom")
        ∧ (generateResponse [.text "JSON q"] none 1 50 10 (fun _ => .raise "boom")
            ⟨false, [], 0, 0, []⟩).remoteCalls = 1
        ∧ (generateResponse [.text "JSON q"] none 1 50 10 (fun _ => .raise "boom")
            ⟨false, [], 0, 0, []⟩).sleeps = 0) :=
  ⟨((C8_transient_retry_policy [.text "JSON q"] none 1 50 10
      (fun a => if a = 0 then .raise "timeout" else .text "\x7b\"k\": 2\x7d")
      ⟨false, [], 0, 0, []⟩ "timeout" rfl rfl (by decide) rfl (by decide)).1
      (by decide)).1 "\x7b\"k\": 2\x7d" (.obj [("k", .num "2")]) rfl rfl,
   ((C8_transient_retry_policy [.text "JSON q"] none 1 50 10
      (fun a => if a = 0 then .raise "timeout" else .raise "503 unavailable")
      ⟨false, [], 0, 0, []⟩ "timeout" rfl rfl (by decide) rfl (by decide)).1
      (by decide)).2 "503 unavailable" rfl (by decide),
   (C8_transient_retry_policy [.text "JSON q"] none 1 50 10 (fun _ => .raise "boom")
      ⟨false, [], 0, 0, []⟩ "boom" rfl rfl (by decide) rfl (by decide)).2 (by decide)⟩

/-- C5: for a device-confidence value in [0, 1], the pipeline's own
confidence-level assignment (run when the provider supplied none) lands in
exactly one bucket — low below 0.3, medium in [0.3, 0.6), high at or above
0.6 — and the display badge applies the identical bucketing. -/
theorem C5_confidence_buckets (c : ℚ) (_h0 : 0 ≤ c) (_h1 : c ≤ 1) :
    (c < 0.3 → bucketConfidence c = "low")
    ∧ (0.3 ≤ c → c < 0.6 → bucketConfidence c = "medium")
    ∧ (0.6 ≤ c → bucketConfidence c = "high")
    ∧ resolveConfidenceLevel none c = bucketConfidence c
    ∧ confidenceBadge c = bucketConfidence c := by
  unfold resolveConfidenceLevel bucketConfidence confidenceBadge
  unfold HIGH_CONFIDENCE_THRESHOLD MEDIUM_CONFIDENCE_THRESHOLD
  refine ⟨?_, ?_, ?_, ?_, ?_⟩
  · intro hlt
    rw [if_neg (by linarith), if_neg (by linarith)]
  · intro hge hlt
    rw [if_neg (by linarith), if_pos hge]
  · intro hge
    rw [if_pos hge]
  · rfl
  · rfl

/-- C5 witness: the bucketing evaluated at confidence 0.45. -/
theorem C5_witness :
    ((0.45 : ℚ) < 0.3 → bucketConfidence 0.45 = "low")
    ∧ ((0.3 : ℚ) ≤ 0.45 → (0.45 : ℚ) < 0.6 → bucketConfidence 0.45 = "medium")
    ∧ ((0.6 : ℚ) ≤ 0.45 → bucketConfidence 0.45 = "high")
    ∧ resolveConfidenceLevel none 0.45 = bucketConfidence 0.45
    ∧ confidenceBadge 0.45 = bucketConfidence 0.45 :=
  C5_confidence_buckets 0.45 (by norm_num) (by norm_num)

/-- C6: the localization gate opens exactly when device confidence reaches
the medium threshold, the device type is a recognized device, and the intent
needs localization or names a target; when the gate opened and the target is
not visible, a `locate` query type — in particular a purely locational query
with no action requested — terminates with the component-not-found scenario,
while any other intent continues, and the continued response carries no
bounding box. -/
theorem C6_localization_gate (d : DeviceInfo) (q : QueryInfo) (sp : SpatialContext)
    (st : StepInfo) (qo : Option QueryInfo) (dims : Int × Int) :
    ((shouldAttemptLocalization d q).1 = true ↔
      ((0.3 : ℚ) ≤ d.deviceConfidence ∧ d.deviceType ≠ "Unknown"
        ∧ d.deviceType ≠ "not_a_device"
        ∧ (q.needsLocalization = true ∨ optTruthy q.targetComponent = true)))
    ∧ (q.queryType = "locate" → gate4Decision q false = .terminateComponentNotFound)
    ∧ (q.queryType ≠ "locate" → gate4Decision q false = .continuePipeline)
    ∧ (sp.componentVisible = false →
        (buildTroubleshootResponse d sp st dims qo).boundingBox = none) := by
  refine ⟨?_, ?_, ?_, ?_⟩
  · unfold shouldAttemptLocalization
    split_ifs with hc1 hc2 hc3
    · simp only [Bool.false_eq_true, false_iff]
      rintro ⟨hge, -, -, -⟩
      linarith
    · simp only [Bool.false_eq_true, false_iff]
      rintro ⟨-, hu, hn, -⟩
      rcases hc2 with h | h
      · exact hu h
      · exact hn h
    · simp only [Bool.false_eq_true, false_iff]
      rw [Bool.and_eq_true, Bool.not_eq_true', Bool.not_eq_true'] at hc3
      rintro ⟨-, -, -, hor⟩
      rcases hor with h | h
      · rw [hc3.1] at h
        exact Bool.false_ne_true h
      · rw [hc3.2] at h
        exact Bool.false_ne_true h
    · simp only [true_iff]
      refine ⟨by linarith [not_lt.mp hc1], ?_, ?_, ?_⟩
      · intro h
        exact hc2 (Or.inl h)
      · intro h
        exact hc2 (Or.inr h)
      · rcases hb : q.needsLocalization with _ | _
        · rcases ht : optTruthy q.targetComponent with _ | _
          · exfalso
            apply hc3
            rw [hb, ht]
            rfl
          · exact Or.inr rfl
        · exact Or.inl rfl
  · intro hloc
    simp [gate4Decision, hloc]
  · intro hloc
    simp [gate4Decision, hloc]
  · intro hvis
    unfold buildTroubleshootResponse
    rw [addScenarioFields_bbox]
    simp only [hvis, Bool.false_eq_true, if_false]

/-- C6 witness: the gate evaluated at a recognized router at confidence 0.8
with a locate intent naming a target, an invisible target, and the assembled
response of the continued pipeline. -/
theorem C6_witness :
    ((shouldAttemptLocalization
        ⟨"Router", 0.8, some "high", [], "", none, false, [], []⟩
        ⟨"locate", some "reset button", true, false, ""⟩).1 = true ↔
      ((0.3 : ℚ) ≤ 0.8 ∧ "Router" ≠ "Unknown" ∧ "Router" ≠ "not_a_device"
        ∧ (true = true ∨ optTruthy (some "reset button") = true)))
    ∧ ("locate" = "locate" →
        gate4Decision ⟨"locate", some "reset button", true, false, ""⟩ false =
          .terminateComponentNotFound)
    ∧ ("locate" ≠ "locate" →
        gate4Decision ⟨"locate", some "reset button", true, false, ""⟩ false =
          .continuePipeline)
    ∧ (false = false →
        (buildTroubleshootResponse
          ⟨"Router", 0.8, some "high", [], "", none, false, [], []⟩
          ⟨some "reset button", some "reset button", none, false, [], "", none⟩
          skippedStepInfo (800, 600) none).boundingBox = none) :=
  C6_localization_gate
    ⟨"Router", 0.8, some "high", [], "", none, false, [], []⟩
    ⟨"locate", some "reset button", true, false, ""⟩
    ⟨some "reset button", some "reset button", none, false, [], "", none⟩
    skippedStepInfo none (800, 600)

/-- C9: every bounding box in a synthesized response has all four pixel
coordinates clamped into the image bounds — the x coordinates into
[0, width], the y coordinates into [0, height] — and in particular an x_max
beyond the image width is replaced by the image width. -/
theorem C9_bbox_clamped (d : DeviceInfo) (sp : SpatialContext) (st : StepInfo)
    (qo : Option QueryInfo) (w h : Int) (b : PixelBox)
    (hw : 0 ≤ w) (hh : 0 ≤ h)
    (hb : (buildTroubleshootResponse d sp st (w, h) qo).boundingBox = some b) :
    0 ≤ b.xMin ∧ b.xMin ≤ w ∧ 0 ≤ b.yMin ∧ b.yMin ≤ h
    ∧ 0 ≤ b.xMax ∧ b.xMax ≤ w ∧ 0 ≤ b.yMax ∧ b.yMax ≤ h
    ∧ (∀ pb : PixelBox, sp.pixelCoords = some pb → w < pb.xMax → b.xMax = w) := by
  unfold buildTroubleshootResponse at hb
  rw [addScenarioFields_bbox] at hb
  simp only at hb
  rcases hvis : sp.componentVisible with _ | _
  · rw [hvis] at hb
    simp at hb
  · rw [hvis] at hb
    simp only [if_pos] at hb
    rcases hpc : sp.pixelCoords with _ | pb0
    · rw [hpc] at hb
      simp at hb
    · rw [hpc] at hb
      simp only [Option.some.injEq] at hb
      subst hb
      refine ⟨le_max_left 0 _, max_le hw (min_le_right _ _),
        le_max_left 0 _, max_le hh (min_le_right _ _),
        le_max_left 0 _, max_le hw (min_le_right _ _),
        le_max_left 0 _, max_le hh (min_le_right _ _), ?_⟩
      intro pb hpb hbeyond
      cases Option.some.inj hpb
      show clampCoord pb0.xMax w = w
      unfold clampCoord
      rw [min_eq_right (le_of_lt hbeyond), max_eq_right hw]

/-- C9 witness: a reported box with x_max = 1000 on an 800 × 600 image is
clamped, and its x_max is replaced by the image width. -/
theorem C9_witness :
    0 ≤ (clampCoord 10 800) ∧ (clampCoord 10 800) ≤ 800
    ∧ 0 ≤ (clampCoord 20 600) ∧ (clampCoord 20 600) ≤ 600
    ∧ 0 ≤ (clampCoord 1000 800) ∧ (clampCoord 1000 800) ≤ 800
    ∧ 0 ≤ (clampCoord 400 600) ∧ (clampCoord 400 600) ≤ 600
    ∧ (∀ pb : PixelBox,
        (⟨some "fan", some "fan", none, true, [], "", some ⟨10, 20, 1000, 400⟩⟩ :
          SpatialContext).pixelCoords = some pb →
        (800 : Int) < pb.xMax → clampCoord 1000 800 = 800) := by
  have hb : (buildTroubleshootResponse
      ⟨"Router", 0.8, some "high", [], "", none, false, [], []⟩
      ⟨some "fan", some "fan", none, true, [], "", some ⟨10, 20, 1000, 400⟩⟩
      skippedStepInfo (800, 600) none).boundingBox =
      some ⟨clampCoord 10 800, clampCoord 20 600, clampCoord 1000 800, clampCoord 400 600⟩ := by
    unfold buildTroubleshootResponse
    rw [addScenarioFields_bbox]
    rfl
  exact C9_bbox_clamped
    ⟨"Router", 0.8, some "high", [], "", none, false, [], []⟩
    ⟨some "fan", some "fan", none, true, [], "", some ⟨10, 20, 1000, 400⟩⟩
    skippedStepInfo none 800 600
    ⟨clampCoord 10 800, clampCoord 20 600, clampCoord 1000 800, clampCoord 400 600⟩
    (by norm_num) (by norm_num) hb

/-- C4 (failing input for the narration contract): a pure locate query —
query type `locate`, steps flagged unneeded, no action verb requested —
passes the Gate-5 skip test, and the response then assembled from the skip
placeholder carries the empty string as `audio_instructions`; the narration
generator that would repair this (`generate_audio_script`) is never invoked
by the pipeline. -/
theorem C4_locate_skip_empty_narration :
    shouldSkipSteps ⟨"locate", some "reset button", true, false, ""⟩ = true
    ∧ skippedStepInfo.audioInstructions = ""
    ∧ (buildTroubleshootResponse
        ⟨"Router", 0.8, some "high", ["antenna", "reset button"], "clear logo", none,
          false, [], []⟩
        ⟨some "reset button", some "reset button", some "back panel, left side", true,
          [], "", none⟩
        skippedStepInfo (800, 600)
        (some ⟨"locate", some "reset button", true, false, ""⟩)).audioInstructions = "" := by
  refine ⟨rfl, rfl, ?_⟩
  unfold buildTroubleshootResponse
  rw [addScenarioFields_audio]
  rfl

end FixIt
